import Mathlib

/-
Verification of the lesson-plan analysis client (src/services/geminiService.ts).

The single exported operation `analyzeLessonPlanWithGemini` checks for an API
key, builds a prompt embedding the caller's lesson text, issues one request to
the remote generation service, trims and JSON-parses the textual reply, and
post-processes the parsed object: each of the three objective lists is
defaulted to [] when absent and every element receives a locally generated id
of the form <listTag><timestamp>-<index>.

The embedding makes the ambient platform explicit: a `GeminiEnv` carries
whether a `process` object exists, the API key, the successive values
returned by Date.now(), the outcome of the remote call, and the semantics of
the platform's JSON.parse (modelled as a partial function into the typed
shape the response schema requests; JSON.parse throwing is `none`).
-/

set_option maxHeartbeats 1000000

namespace GeminiService

/-- One instructional objective of a returned lesson plan.
Modelled from the spec: the `Objective` record of `../types` (that file is not
under src/): an `id`, a taxonomy `level`, a `formulation` and an `evaluation`,
all strings. -/
structure Objective where
  id : String
  level : String
  formulation : String
  evaluation : String
  deriving DecidableEq

/-- An objective-shaped record as it sits in the parsed JSON reply, before
post-processing: the response schema requires `level`, `formulation` and
`evaluation`; the remote service may or may not also send an `id` field
(the code overwrites it either way via the object spread). -/
structure RawObjective where
  id : Option String
  level : String
  formulation : String
  evaluation : String
  deriving DecidableEq

/-- The parsed JSON reply. Field names follow the `responseSchema` of the
source; no top-level field is in a `required` list, so each may be absent. -/
structure ParsedResult where
  lessonTitle : Option String := none
  subject : Option String := none
  grade : Option String := none
  teachingMethods : Option (List String) := none
  teachingAids : Option (List String) := none
  lessonIntro : Option String := none
  introType : Option String := none
  cognitiveObjectives : Option (List RawObjective) := none
  psychomotorObjectives : Option (List RawObjective) := none
  affectiveObjectives : Option (List RawObjective) := none
  teacherRole : Option String := none
  studentRole : Option String := none
  lessonContent : Option String := none
  lessonClosure : Option String := none
  homework : Option String := none
  deriving DecidableEq

/-- The partial LessonPlan the operation returns.
Modelled from the spec: the `LessonPlan` record of `../types` (not under
src/): the optional string and string-list fields of the data model plus the
three objective lists, which the code always sets. -/
structure LessonPlan where
  lessonTitle : Option String := none
  subject : Option String := none
  grade : Option String := none
  teachingMethods : Option (List String) := none
  teachingAids : Option (List String) := none
  lessonIntro : Option String := none
  introType : Option String := none
  teacherRole : Option String := none
  studentRole : Option String := none
  lessonContent : Option String := none
  lessonClosure : Option String := none
  homework : Option String := none
  cognitiveObjectives : List Objective := []
  psychomotorObjectives : List Objective := []
  affectiveObjectives : List Objective := []
  deriving DecidableEq

/-- The execution environment the function reads: `process` definedness and
the API key, the stream of Date.now() values (the k-th call of Date.now()
inside the analysis returns `clock k`), the outcome of the single remote
generateContent call (`Except.error` = the call throws/rejects, `Except.ok
text` = it resolves with `response.text`), and the platform JSON.parse
(`none` = JSON.parse throws on that string). -/
structure GeminiEnv where
  processDefined : Bool
  apiKey : Option String
  clock : Nat → Nat
  remote : Except String String
  jsonParse : String → Option ParsedResult

/-- The credential check of the source: `typeof process !== 'undefined' &&
process.env.API_KEY` is truthy (in JS an empty string is falsy). -/
def apiKeyPresent (env : GeminiEnv) : Bool :=
  env.processDefined && !(env.apiKey.getD "").isEmpty

/-- The user-facing message of the configuration error thrown when no API key
is available (the Arabic string of the source). -/
def apiKeyErrorMessage : String :=
  "لم يتم العثور على مفتاح الواجهة البرمجية (API Key). يرجى التأكد من إعداده في متغيرات البيئة الخاصة بنشر التطبيق."

/-- The message of the generic analysis failure thrown by the catch block. -/
def geminiFailureMessage : String :=
  "Failed to analyze lesson plan with Gemini."

/-- The prompt text standing before the spliced lesson text in the template
literal of the source. -/
def promptPre : String :=
  "\n    You are an expert educational assistant specializing in analyzing and structuring lesson plans for Yemeni teachers.\n    Your task is to analyze the following lesson plan text and extract the required information into a structured JSON format.\n    You must analyze the provided lesson text and fill in all fields in the JSON schema. If a specific detail (like 'teaching aids' or 'teacher role') is missing from the text, you MUST infer and generate appropriate content based on the lesson's subject, grade level, and topic. For example, for a 5th-grade Arabic lesson about poetry, you might suggest 'whiteboard, markers, poetry anthology' as teaching aids. Do not leave any fields empty; provide logical and relevant suggestions for all of them. Ensure the objectives you generate are well-formed and appropriate for the lesson.\n\n    The lesson plan is:\n    ---\n    "

/-- The prompt text standing after the spliced lesson text. -/
def promptSuf : String :=
  "\n    ---\n    Please extract the information according to the provided JSON schema.\n    "

/-- The template literal `prompt` of the source: the fixed instruction text
with the raw lesson text spliced in between. -/
def buildPrompt (lessonText : String) : String :=
  promptPre ++ lessonText ++ promptSuf

/-- JavaScript String.prototype.trim (a platform builtin): drop whitespace
from both ends of the character list. -/
def jsTrimList (l : List Char) : List Char :=
  ((l.dropWhile Char.isWhitespace).reverse.dropWhile Char.isWhitespace).reverse

/-- `response.text.trim()` of the source, via `jsTrimList`. -/
def jsTrim (s : String) : String :=
  ⟨jsTrimList s.data⟩

/-- One generated identifier: the template literal `<pre><t>-<i>` where `pre`
is the list tag with its dash (cog-, psy-, aff-), `t` the Date.now() value
and `i` the element index, both rendered in decimal. -/
def mkId (pre : String) (t i : Nat) : String :=
  pre ++ Nat.repr t ++ "-" ++ Nat.repr i

/-- The `.map((o, i) => ({...o, id: ...}))` of the source over one objective
list: element `i` (counting from the first argument) keeps its schema fields
and gets the id built from the next Date.now() value; `base` counts the
Date.now() calls already consumed by earlier lists of the same analysis. -/
def assignIds (pre : String) (clock : Nat → Nat) (base : Nat) : Nat → List RawObjective → List Objective
  | _, [] => []
  | i, o :: rest =>
    { id := mkId pre (clock (base + i)) i, level := o.level,
      formulation := o.formulation, evaluation := o.evaluation }
      :: assignIds pre clock base (i + 1) rest

/-- The post-processing block of the source: default each missing objective
list to [] (the `|| []`), then map the id assignment over the three lists in
source order (cognitive, then psychomotor, then affective), keeping every
other parsed field as returned by the service. -/
def postProcess (clock : Nat → Nat) (p : ParsedResult) : LessonPlan :=
  let cogs := p.cognitiveObjectives.getD []
  let psys := p.psychomotorObjectives.getD []
  let affs := p.affectiveObjectives.getD []
  { lessonTitle := p.lessonTitle, subject := p.subject, grade := p.grade,
    teachingMethods := p.teachingMethods, teachingAids := p.teachingAids,
    lessonIntro := p.lessonIntro, introType := p.introType,
    teacherRole := p.teacherRole, studentRole := p.studentRole,
    lessonContent := p.lessonContent, lessonClosure := p.lessonClosure,
    homework := p.homework,
    cognitiveObjectives := assignIds "cog-" clock 0 0 cogs,
    psychomotorObjectives := assignIds "psy-" clock cogs.length 0 psys,
    affectiveObjectives := assignIds "aff-" clock (cogs.length + psys.length) 0 affs }

deriving instance DecidableEq for Except

/-- What one call of the operation does: its result (the thrown error message
or the returned plan), how many requests reached the remote service, and the
prompt of the request when one was issued. -/
structure AnalyzeOutcome where
  result : Except String LessonPlan
  networkCalls : Nat
  sentPrompt : Option String
  deriving DecidableEq

/-- The exported function of src/services/geminiService.ts. Checks the
credential (throwing the configuration message before any request), builds
the prompt, issues the single generateContent request, trims and parses the
reply, and post-processes the parsed object; the catch block turns both a
rejected remote call and a JSON.parse failure into the one generic failure
message. -/
def analyzeLessonPlanWithGemini (env : GeminiEnv) (lessonText : String) : AnalyzeOutcome :=
  if apiKeyPresent env = false then
    { result := .error apiKeyErrorMessage, networkCalls := 0, sentPrompt := none }
  else
    let prompt := buildPrompt lessonText
    match env.remote with
    | .error _ =>
      { result := .error geminiFailureMessage, networkCalls := 1, sentPrompt := some prompt }
    | .ok text =>
      match env.jsonParse (jsTrim text) with
      | none =>
        { result := .error geminiFailureMessage, networkCalls := 1, sentPrompt := some prompt }
      | some parsed =>
        { result := .ok (postProcess env.clock parsed), networkCalls := 1,
          sentPrompt := some prompt }

/-- All objective ids of a returned plan, in source list order. -/
def idsOf (lp : LessonPlan) : List String :=
  (lp.cognitiveObjectives ++ lp.psychomotorObjectives ++ lp.affectiveObjectives).map Objective.id

/-- Decimal digit characters are not the dash separator. -/
lemma digitChar_ne_dash : ∀ d : Nat, d < 10 → Nat.digitChar d ≠ '-' := by decide

/-- The dash never occurs among the characters `Nat.toDigitsCore` emits over a
dash-free accumulator. -/
lemma dash_not_mem_toDigitsCore :
    ∀ (fuel n : Nat) (acc : List Char), '-' ∉ acc → '-' ∉ Nat.toDigitsCore 10 fuel n acc
  | 0, n, acc, h => by simpa [Nat.toDigitsCore] using h
  | fuel + 1, n, acc, h => by
    have hd : Nat.digitChar (n % 10) ≠ '-' :=
      digitChar_ne_dash _ (Nat.mod_lt _ (by norm_num))
    have hacc : '-' ∉ Nat.digitChar (n % 10) :: acc := by
      intro hm
      rcases List.mem_cons.mp hm with h1 | h1
      · exact hd h1.symm
      · exact h h1
    by_cases hz : n / 10 = 0
    · simpa [Nat.toDigitsCore, hz] using hacc
    · simpa [Nat.toDigitsCore, hz] using
        dash_not_mem_toDigitsCore fuel (n / 10) _ hacc

/-- The decimal rendering of a natural number contains no dash. -/
lemma dash_not_mem_repr (n : Nat) : '-' ∉ (Nat.repr n).data :=
  dash_not_mem_toDigitsCore (n + 1) n [] (List.not_mem_nil '-')

/-- `Nat.toDigitsCore` prepends its output to the accumulator. -/
lemma toDigitsCore_append :
    ∀ (fuel n : Nat) (acc : List Char),
      Nat.toDigitsCore 10 fuel n acc = Nat.toDigitsCore 10 fuel n [] ++ acc
  | 0, n, acc => by simp [Nat.toDigitsCore]
  | fuel + 1, n, acc => by
    by_cases hz : n / 10 = 0
    · simp [Nat.toDigitsCore, hz]
    · have h1 := toDigitsCore_append fuel (n / 10) (Nat.digitChar (n % 10) :: acc)
      have h2 := toDigitsCore_append fuel (n / 10) [Nat.digitChar (n % 10)]
      simp [Nat.toDigitsCore, hz, h1, h2]

/-- Any sufficient fuel gives `Nat.toDigitsCore` the same output. -/
lemma toDigitsCore_fuel :
    ∀ (f1 f2 n : Nat), n < f1 → n < f2 →
      Nat.toDigitsCore 10 f1 n [] = Nat.toDigitsCore 10 f2 n []
  | 0, _, n, h, _ => absurd h (Nat.not_lt_zero n)
  | _ + 1, 0, n, _, h => absurd h (Nat.not_lt_zero n)
  | f1 + 1, f2 + 1, n, ha, hb => by
    by_cases hz : n / 10 = 0
    · simp [Nat.toDigitsCore, hz]
    · have hn : 0 < n := Nat.pos_of_ne_zero (by rintro rfl; simp at hz)
      have hlt : n / 10 < n := Nat.div_lt_self hn (by norm_num)
      have rec := toDigitsCore_fuel f1 f2 (n / 10) (by omega) (by omega)
      simp [Nat.toDigitsCore, hz,
        toDigitsCore_append f1 (n / 10) [Nat.digitChar (n % 10)],
        toDigitsCore_append f2 (n / 10) [Nat.digitChar (n % 10)], rec]

/-- The numeric value of a decimal digit character. -/
def digitVal (c : Char) : Nat := c.toNat - 48

/-- One step of reading a decimal string left to right. -/
def decStep (a : Nat) (c : Char) : Nat := 10 * a + digitVal c

/-- The numeric value of a decimal character list. -/
def decVal (l : List Char) : Nat := l.foldl decStep 0

lemma digitVal_digitChar : ∀ d : Nat, d < 10 → digitVal (Nat.digitChar d) = d := by decide

/-- Reading back the decimal rendering of `n` returns `n`: `Nat.repr` is
left-invertible, hence injective. -/
lemma decVal_repr (n : Nat) : decVal (Nat.repr n).data = n := by
  induction n using Nat.strong_induction_on with
  | _ n ih =>
    have hrepr : (Nat.repr n).data = Nat.toDigitsCore 10 (n + 1) n [] := rfl
    by_cases hz : n / 10 = 0
    · have hn10 : n < 10 := by omega
      rw [hrepr]
      simp [Nat.toDigitsCore, hz, decVal, decStep, Nat.mod_eq_of_lt hn10,
        digitVal_digitChar n hn10]
    · have hn : 0 < n := Nat.pos_of_ne_zero (by rintro rfl; simp at hz)
      have hlt : n / 10 < n := Nat.div_lt_self hn (by norm_num)
      have hstep : (Nat.repr n).data
          = (Nat.repr (n / 10)).data ++ [Nat.digitChar (n % 10)] := by
        rw [hrepr]
        have hu : Nat.toDigitsCore 10 (n + 1) n []
            = Nat.toDigitsCore 10 n (n / 10) [Nat.digitChar (n % 10)] := by
          simp [Nat.toDigitsCore, hz]
        rw [hu, toDigitsCore_append n (n / 10) [Nat.digitChar (n % 10)],
          toDigitsCore_fuel n (n / 10 + 1) (n / 10) hlt (Nat.lt_succ_self _)]
        rfl
      have hmod : n % 10 < 10 := Nat.mod_lt _ (by norm_num)
      rw [hstep]
      simp [decVal, List.foldl_append, decStep]
      rw [show (Nat.repr (n / 10)).data.foldl decStep 0 = decVal (Nat.repr (n / 10)).data from rfl,
        ih (n / 10) hlt, digitVal_digitChar _ hmod]
      omega

/-- Two lists that agree past a separator absent from both tails split
identically at that separator. -/
lemma append_sep_inj (c : Char) :
    ∀ (l1 l2 a b : List Char), c ∉ a → c ∉ b →
      l1 ++ c :: a = l2 ++ c :: b → l1 = l2 ∧ a = b
  | [], [], a, b, _, _, h => by simpa using h
  | [], d :: l2, a, b, ha, _, h => by
    exfalso
    simp only [List.nil_append, List.cons_append, List.cons.injEq] at h
    exact ha (h.2 ▸ List.mem_append_right l2 (List.mem_cons_self c b))
  | d :: l1, [], a, b, _, hb, h => by
    exfalso
    simp only [List.nil_append, List.cons_append, List.cons.injEq] at h
    exact hb (h.2.symm ▸ List.mem_append_right l1 (List.mem_cons_self c a))
  | d :: l1, e :: l2, a, b, ha, hb, h => by
    simp only [List.cons_append, List.cons.injEq] at h
    obtain ⟨rfl, h2⟩ := h
    obtain ⟨h3, h4⟩ := append_sep_inj c l1 l2 a b ha hb h2
    exact ⟨by rw [h3], h4⟩

/-- The character list of a generated id, split at the final separator. -/
lemma mkId_data (pre : String) (t i : Nat) :
    (mkId pre t i).data = (pre.data ++ (Nat.repr t).data) ++ '-' :: (Nat.repr i).data := by
  show (pre ++ Nat.repr t ++ "-" ++ Nat.repr i).data = _
  simp [List.append_assoc]

/-- Equal generated ids carry the same element index, and the same tag-plus-
timestamp rendering. -/
lemma mkId_inj {p q : String} {t u i j : Nat} (h : mkId p t i = mkId q u j) :
    p.data ++ (Nat.repr t).data = q.data ++ (Nat.repr u).data ∧ i = j := by
  have hd := congrArg String.data h
  rw [mkId_data, mkId_data] at hd
  obtain ⟨h1, h2⟩ :=
    append_sep_inj '-' _ _ _ _ (dash_not_mem_repr i) (dash_not_mem_repr j) hd
  refine ⟨h1, ?_⟩
  have := congrArg decVal h2
  rwa [decVal_repr, decVal_repr] at this

/-- Equal generated ids with tags of one length agree on tag, timestamp and
index. -/
lemma mkId_inj_of_length {p q : String} (hlen : p.data.length = q.data.length)
    {t u i j : Nat} (h : mkId p t i = mkId q u j) : p = q ∧ t = u ∧ i = j := by
  obtain ⟨h1, rfl⟩ := mkId_inj h
  obtain ⟨hp, ht⟩ := List.append_inj h1 hlen
  refine ⟨?_, ?_, rfl⟩
  · cases p; cases q
    exact congrArg String.mk hp
  · have := congrArg decVal ht
    rwa [decVal_repr, decVal_repr] at this

/-- A generated id is the list tag followed by the rest. -/
lemma mkId_eq_append (pre : String) (t i : Nat) :
    mkId pre t i = pre ++ (Nat.repr t ++ "-" ++ Nat.repr i) := by
  apply congrArg String.mk
  simp [List.append_assoc]

/-- Strings beginning with distinct characters differ, whatever follows. -/
lemma tag_append_ne {p q : String} {c d : Char} {cs ds : List Char}
    (hp : p.data = c :: cs) (hq : q.data = d :: ds) (hcd : c ≠ d) (r s : String) :
    p ++ r ≠ q ++ s := by
  intro h
  have hd := congrArg String.data h
  simp only [String.data_append, hp, hq, List.cons_append] at hd
  injection hd with h1 _
  exact hcd h1

/-- A string beginning with a character is not empty, whatever follows. -/
lemma tag_append_ne_empty {p : String} {c : Char} {cs : List Char}
    (hp : p.data = c :: cs) (r : String) : p ++ r ≠ "" := by
  intro h
  have hd := congrArg String.data h
  simp only [String.data_append, hp, List.cons_append] at hd
  exact List.cons_ne_nil c (cs ++ r.data) hd

/-- Every element of `assignIds` carries an id generated from its own index
(at least the starting index) and a Date.now() slot of the same run. -/
lemma assignIds_mem_shape (pre : String) (clock : Nat → Nat) (base : Nat) :
    ∀ (i : Nat) (l : List RawObjective) (o : Objective), o ∈ assignIds pre clock base i l →
      ∃ j, i ≤ j ∧ o.id = mkId pre (clock (base + j)) j
  | i, [], o, h => absurd h (List.not_mem_nil o)
  | i, r :: rest, o, h => by
    rcases List.mem_cons.mp h with h1 | h1
    · exact ⟨i, le_refl i, by rw [h1]⟩
    · obtain ⟨j, hj, hid⟩ := assignIds_mem_shape pre clock base (i + 1) rest o h1
      exact ⟨j, by omega, hid⟩

/-- Within one `assignIds` run the generated ids are pairwise distinct: the
element index is part of the id and the decimal index after the last dash
determines it. -/
lemma assignIds_pairwise (pre : String) (clock : Nat → Nat) (base : Nat) :
    ∀ (i : Nat) (l : List RawObjective),
      List.Pairwise (fun a b : Objective => a.id ≠ b.id) (assignIds pre clock base i l)
  | _, [] => List.Pairwise.nil
  | i, r :: rest => by
    refine List.pairwise_cons.mpr ⟨?_, assignIds_pairwise pre clock base (i + 1) rest⟩
    intro o ho heq
    obtain ⟨j, hj, hid⟩ := assignIds_mem_shape pre clock base (i + 1) rest o ho
    rw [hid] at heq
    have := (mkId_inj heq).2
    omega

/-- Every id generated by `assignIds` starts with the run's list tag. -/
lemma assignIds_mem_pre {pre : String} {clock : Nat → Nat} {base i : Nat}
    {l : List RawObjective} {o : Objective} (h : o ∈ assignIds pre clock base i l) :
    ∃ r, o.id = pre ++ r := by
  obtain ⟨j, _, hid⟩ := assignIds_mem_shape pre clock base i l o h
  exact ⟨_, by rw [hid, mkId_eq_append]⟩

/-- The cognitive list of the post-processed result. -/
lemma postProcess_cognitive (clock : Nat → Nat) (p : ParsedResult) :
    (postProcess clock p).cognitiveObjectives
      = assignIds "cog-" clock 0 0 (p.cognitiveObjectives.getD []) := rfl

/-- The psychomotor list of the post-processed result. -/
lemma postProcess_psychomotor (clock : Nat → Nat) (p : ParsedResult) :
    (postProcess clock p).psychomotorObjectives
      = assignIds "psy-" clock (p.cognitiveObjectives.getD []).length 0
          (p.psychomotorObjectives.getD []) := rfl

/-- The affective list of the post-processed result. -/
lemma postProcess_affective (clock : Nat → Nat) (p : ParsedResult) :
    (postProcess clock p).affectiveObjectives
      = assignIds "aff-" clock
          ((p.cognitiveObjectives.getD []).length + (p.psychomotorObjectives.getD []).length) 0
          (p.affectiveObjectives.getD []) := rfl

/-- All ids of a post-processed result are pairwise distinct: indices separate
ids within a list, tags separate ids across lists. -/
lemma postProcess_ids_distinct (clock : Nat → Nat) (p : ParsedResult) :
    List.Pairwise (fun a b : String => a ≠ b) (idsOf (postProcess clock p)) := by
  unfold idsOf
  rw [List.map_append, List.map_append]
  have cross_pre : ∀ {preA preB : String} {cA cB : Char} {csA csB : List Char},
      preA.data = cA :: csA → preB.data = cB :: csB → cA ≠ cB →
      ∀ {baseA iA lA baseB iB lB} (x : String),
        x ∈ (assignIds preA clock baseA iA lA).map Objective.id →
        ∀ y ∈ (assignIds preB clock baseB iB lB).map Objective.id, x ≠ y := by
    intro preA preB cA cB csA csB hA hB hAB baseA iA lA baseB iB lB x hx y hy
    obtain ⟨o, ho, rfl⟩ := List.mem_map.mp hx
    obtain ⟨o2, ho2, rfl⟩ := List.mem_map.mp hy
    obtain ⟨r, hr⟩ := assignIds_mem_pre ho
    obtain ⟨s, hs⟩ := assignIds_mem_pre ho2
    rw [hr, hs]
    exact tag_append_ne hA hB hAB r s
  refine List.pairwise_append.mpr ⟨List.pairwise_append.mpr ⟨?_, ?_, ?_⟩, ?_, ?_⟩
  · rw [postProcess_cognitive, List.pairwise_map]
    exact assignIds_pairwise "cog-" clock 0 0 _
  · rw [postProcess_psychomotor, List.pairwise_map]
    exact assignIds_pairwise "psy-" clock _ 0 _
  · rw [postProcess_cognitive, postProcess_psychomotor]
    exact fun x hx y hy => cross_pre rfl rfl (by decide) x hx y hy
  · rw [postProcess_affective, List.pairwise_map]
    exact assignIds_pairwise "aff-" clock _ 0 _
  · intro x hx y hy
    rw [postProcess_affective] at hy
    rcases List.mem_append.mp hx with h1 | h1
    · rw [postProcess_cognitive] at h1
      exact cross_pre rfl rfl (by decide) x h1 y hy
    · rw [postProcess_psychomotor] at h1
      exact cross_pre rfl rfl (by decide) x h1 y hy

/-- No id of a post-processed result is the empty string. -/
lemma postProcess_ids_ne_empty (clock : Nat → Nat) (p : ParsedResult) :
    ∀ s ∈ idsOf (postProcess clock p), s ≠ "" := by
  intro s hs
  unfold idsOf at hs
  obtain ⟨o, ho, rfl⟩ := List.mem_map.mp hs
  rcases List.mem_append.mp ho with h1 | h1
  · rcases List.mem_append.mp h1 with h2 | h2
    · rw [postProcess_cognitive] at h2
      obtain ⟨r, hr⟩ := assignIds_mem_pre h2
      rw [hr]
      exact tag_append_ne_empty rfl r
    · rw [postProcess_psychomotor] at h2
      obtain ⟨r, hr⟩ := assignIds_mem_pre h2
      rw [hr]
      exact tag_append_ne_empty rfl r
  · rw [postProcess_affective] at h1
    obtain ⟨r, hr⟩ := assignIds_mem_pre h1
    rw [hr]
    exact tag_append_ne_empty rfl r

/-- A call that returned a plan had a key, a resolved remote call and a
parseable reply, and the plan is the post-processing of the parsed reply. -/
lemma analyze_result_ok {env : GeminiEnv} {t : String} {lp : LessonPlan}
    (h : (analyzeLessonPlanWithGemini env t).result = Except.ok lp) :
    ∃ text parsed, apiKeyPresent env = true ∧ env.remote = Except.ok text ∧
      env.jsonParse (jsTrim text) = some parsed ∧ lp = postProcess env.clock parsed := by
  cases hk : apiKeyPresent env with
  | false => simp [analyzeLessonPlanWithGemini, hk] at h
  | true =>
    cases hrem : env.remote with
    | error e => simp [analyzeLessonPlanWithGemini, hk, hrem] at h
    | ok text =>
      cases hp : env.jsonParse (jsTrim text) with
      | none => simp [analyzeLessonPlanWithGemini, hk, hrem, hp] at h
      | some parsed =>
        simp [analyzeLessonPlanWithGemini, hk, hrem, hp] at h
        exact ⟨text, parsed, rfl, rfl, hp, h.symm⟩

/-- Dropping whitespace while all-whitespace padding stands on both sides
reaches the same characters as on the unpadded list. -/
lemma jsTrimList_pad (ws1 b ws2 : List Char)
    (h1 : ∀ c ∈ ws1, c.isWhitespace = true) (h2 : ∀ c ∈ ws2, c.isWhitespace = true) :
    jsTrimList (ws1 ++ b ++ ws2) = jsTrimList b := by
  unfold jsTrimList
  have e1 : (ws1 ++ b ++ ws2).dropWhile Char.isWhitespace
      = (b ++ ws2).dropWhile Char.isWhitespace := by
    rw [List.append_assoc]
    exact List.dropWhile_append_of_pos h1
  rw [e1, List.dropWhile_append]
  by_cases hb : (b.dropWhile Char.isWhitespace).isEmpty
  · rw [if_pos hb]
    have hbnil : b.dropWhile Char.isWhitespace = [] := by
      simpa using hb
    have hws2 : ws2.dropWhile Char.isWhitespace = [] :=
      List.dropWhile_eq_nil_iff.mpr h2
    simp [hbnil, hws2]
  · rw [if_neg hb, List.reverse_append]
    rw [List.dropWhile_append_of_pos (fun a ha => h2 a (List.mem_reverse.mp ha))]

/-- `jsTrim` ignores all-whitespace padding around the reply text. -/
lemma jsTrim_pad (ws1 b ws2 : String)
    (h1 : ∀ c ∈ ws1.data, c.isWhitespace = true) (h2 : ∀ c ∈ ws2.data, c.isWhitespace = true) :
    jsTrim (ws1 ++ b ++ ws2) = jsTrim b := by
  unfold jsTrim
  apply congrArg String.mk
  rw [String.data_append, String.data_append]
  exact jsTrimList_pad ws1.data b.data ws2.data h1 h2

/-- Rewrite the id field the remote service may have sent inside each
objective of each list, leaving everything else in place: the returned plan
must not depend on these fields, since the code overwrites them. -/
def mapRemoteIds (f : Option String → Option String) (p : ParsedResult) : ParsedResult :=
  { p with
    cognitiveObjectives :=
      p.cognitiveObjectives.map (List.map fun o => { o with id := f o.id }),
    psychomotorObjectives :=
      p.psychomotorObjectives.map (List.map fun o => { o with id := f o.id }),
    affectiveObjectives :=
      p.affectiveObjectives.map (List.map fun o => { o with id := f o.id }) }

/-- `assignIds` never reads the incoming id fields. -/
lemma assignIds_mapRemote (pre : String) (clock : Nat → Nat) (base : Nat)
    (f : Option String → Option String) :
    ∀ (i : Nat) (l : List RawObjective),
      assignIds pre clock base i (l.map fun o => { o with id := f o.id })
        = assignIds pre clock base i l
  | _, [] => rfl
  | i, o :: rest => by
    have ih := assignIds_mapRemote pre clock base f (i + 1) rest
    simp [assignIds, ih]

/-- Post-processing is invariant under any rewriting of the remote-supplied
id fields. -/
lemma postProcess_mapRemoteIds (clock : Nat → Nat) (f : Option String → Option String)
    (p : ParsedResult) :
    postProcess clock (mapRemoteIds f p) = postProcess clock p := by
  have hgetD : ∀ (o : Option (List RawObjective)),
      (o.map (List.map fun o => { o with id := f o.id })).getD []
        = (o.getD []).map fun o => { o with id := f o.id } := by
    intro o; cases o <;> rfl
  unfold postProcess
  simp only [mapRemoteIds, hgetD, assignIds_mapRemote, List.length_map]

/-- Every id of a post-processed result is a locally generated id: one of the
three tags, a Date.now() value of this run and an element index. -/
lemma idsOf_postProcess_shape (clock : Nat → Nat) (p : ParsedResult) :
    ∀ s ∈ idsOf (postProcess clock p), ∃ pre k j,
      (pre = "cog-" ∨ pre = "psy-" ∨ pre = "aff-") ∧ s = mkId pre (clock k) j := by
  intro s hs
  unfold idsOf at hs
  obtain ⟨o, ho, rfl⟩ := List.mem_map.mp hs
  rcases List.mem_append.mp ho with h1 | h1
  · rcases List.mem_append.mp h1 with h2 | h2
    · rw [postProcess_cognitive] at h2
      obtain ⟨j, -, hid⟩ := assignIds_mem_shape _ _ _ _ _ _ h2
      exact ⟨"cog-", 0 + j, j, Or.inl rfl, hid⟩
    · rw [postProcess_psychomotor] at h2
      obtain ⟨j, -, hid⟩ := assignIds_mem_shape _ _ _ _ _ _ h2
      exact ⟨"psy-", (p.cognitiveObjectives.getD []).length + j, j, Or.inr (Or.inl rfl), hid⟩
  · rw [postProcess_affective] at h1
    obtain ⟨j, -, hid⟩ := assignIds_mem_shape _ _ _ _ _ _ h1
    exact ⟨"aff-",
      (p.cognitiveObjectives.getD []).length + (p.psychomotorObjectives.getD []).length + j,
      j, Or.inr (Or.inr rfl), hid⟩

/-! Concrete runs used to instantiate the claim theorems. -/

/-- A parsed reply with two cognitive and one psychomotor objective; the
remote service tried to supply its own id for two of them. -/
def sampleParsed : ParsedResult :=
  { subject := some "Arabic",
    cognitiveObjectives := some
      [{ id := some "remote-1", level := "L1", formulation := "F1", evaluation := "E1" },
       { id := none, level := "L2", formulation := "F2", evaluation := "E2" }],
    psychomotorObjectives := some
      [{ id := some "remote-2", level := "L3", formulation := "F3", evaluation := "E3" }] }

/-- An environment with a key, a reply padded by whitespace, and a parse
function recognising the trimmed reply. -/
def sampleEnv : GeminiEnv :=
  { processDefined := true, apiKey := some "key", clock := fun k => 100 + k,
    remote := Except.ok "  SAMPLE  ",
    jsonParse := fun s => if s = "SAMPLE" then some sampleParsed else none }

/-- The plan the sample run returns. -/
def sampleLP : LessonPlan := postProcess sampleEnv.clock sampleParsed

/-- An environment with no API key configured. -/
def noKeyEnv : GeminiEnv :=
  { processDefined := true, apiKey := none, clock := fun _ => 0,
    remote := Except.error "unreachable", jsonParse := fun _ => none }

/-- A parsed reply with none of the three objective lists present. -/
def emptyParsed : ParsedResult := { subject := some "Math" }

/-- An environment whose reply parses to `emptyParsed`. -/
def emptyEnv : GeminiEnv :=
  { processDefined := true, apiKey := some "key", clock := fun k => k,
    remote := Except.ok "EMPTY",
    jsonParse := fun s => if s = "EMPTY" then some emptyParsed else none }

/-- An environment whose reply text is not parseable as JSON. -/
def parseFailEnv : GeminiEnv :=
  { processDefined := true, apiKey := some "key", clock := fun k => k,
    remote := Except.ok "not json", jsonParse := fun _ => none }

/-- An environment whose remote call rejects. -/
def transportFailEnv : GeminiEnv :=
  { processDefined := true, apiKey := some "key", clock := fun k => k,
    remote := Except.error "network down", jsonParse := fun _ => none }

/-- A parsed reply with a single cognitive objective. -/
def sameClockParsed : ParsedResult :=
  { cognitiveObjectives := some [{ id := none, level := "L", formulation := "F", evaluation := "E" }] }

/-- An environment whose Date.now() is stuck at 42: two calls through it see
the same timestamps. -/
def sameClockEnv : GeminiEnv :=
  { processDefined := true, apiKey := some "key", clock := fun _ => 42,
    remote := Except.ok "SAME",
    jsonParse := fun s => if s = "SAME" then some sameClockParsed else none }

/-- As `sameClockEnv` with the clock stuck at 0. -/
def envClock0 : GeminiEnv := { sameClockEnv with clock := fun _ => 0 }

/-- As `sameClockEnv` with the clock stuck at 1. -/
def envClock1 : GeminiEnv := { sameClockEnv with clock := fun _ => 1 }

/-! The claims. -/

/-- C1: every call of analyze that returns a LessonPlan returns objectives
whose ids are all non-empty and pairwise distinct across the whole returned
object, hence in particular pairwise distinct within each of the three
lists. -/
theorem claim_C1_ids_unique (env : GeminiEnv) (t : String) (lp : LessonPlan)
    (h : (analyzeLessonPlanWithGemini env t).result = Except.ok lp) :
    (∀ s ∈ idsOf lp, s ≠ "") ∧ List.Pairwise (fun a b : String => a ≠ b) (idsOf lp) := by
  obtain ⟨text, parsed, -, -, -, rfl⟩ := analyze_result_ok h
  exact ⟨postProcess_ids_ne_empty env.clock parsed, postProcess_ids_distinct env.clock parsed⟩

theorem claim_C1_witness :
    (∀ s ∈ idsOf sampleLP, s ≠ "") ∧
      List.Pairwise (fun a b : String => a ≠ b) (idsOf sampleLP) :=
  claim_C1_ids_unique sampleEnv "lesson text" sampleLP rfl

/-- C2: with no credential configured, analyze fails with the configuration
error carrying the user-facing message, makes zero network calls and sends
no prompt. -/
theorem claim_C2_config_error (env : GeminiEnv) (t : String)
    (h : apiKeyPresent env = false) :
    (analyzeLessonPlanWithGemini env t).result = Except.error apiKeyErrorMessage ∧
    (analyzeLessonPlanWithGemini env t).networkCalls = 0 ∧
    (analyzeLessonPlanWithGemini env t).sentPrompt = none ∧
    apiKeyErrorMessage ≠ "" := by
  refine ⟨?_, ?_, ?_, by decide⟩ <;> simp [analyzeLessonPlanWithGemini, h]

theorem claim_C2_witness :
    (analyzeLessonPlanWithGemini noKeyEnv "lesson").result = Except.error apiKeyErrorMessage ∧
    (analyzeLessonPlanWithGemini noKeyEnv "lesson").networkCalls = 0 ∧
    (analyzeLessonPlanWithGemini noKeyEnv "lesson").sentPrompt = none ∧
    apiKeyErrorMessage ≠ "" :=
  claim_C2_config_error noKeyEnv "lesson" rfl

/-- C3: when the parsed reply omits one or more of the three objective list
fields, the corresponding field of the returned LessonPlan is the empty
list (in the embedding a LessonPlan always carries the three lists, so they
are never absent). -/
theorem claim_C3_missing_lists (env : GeminiEnv) (t text : String) (parsed : ParsedResult)
    (hkey : apiKeyPresent env = true)
    (hremote : env.remote = Except.ok text)
    (hparse : env.jsonParse (jsTrim text) = some parsed) :
    (analyzeLessonPlanWithGemini env t).result = Except.ok (postProcess env.clock parsed) ∧
    (parsed.cognitiveObjectives = none →
      (postProcess env.clock parsed).cognitiveObjectives = []) ∧
    (parsed.psychomotorObjectives = none →
      (postProcess env.clock parsed).psychomotorObjectives = []) ∧
    (parsed.affectiveObjectives = none →
      (postProcess env.clock parsed).affectiveObjectives = []) := by
  refine ⟨?_, ?_, ?_, ?_⟩
  · simp [analyzeLessonPlanWithGemini, hkey, hremote, hparse]
  · intro hnone; rw [postProcess_cognitive, hnone]; rfl
  · intro hnone; rw [postProcess_psychomotor, hnone]; rfl
  · intro hnone; rw [postProcess_affective, hnone]; rfl

theorem claim_C3_witness :
    (analyzeLessonPlanWithGemini emptyEnv "t").result
      = Except.ok (postProcess emptyEnv.clock emptyParsed) ∧
    (emptyParsed.cognitiveObjectives = none →
      (postProcess emptyEnv.clock emptyParsed).cognitiveObjectives = []) ∧
    (emptyParsed.psychomotorObjectives = none →
      (postProcess emptyEnv.clock emptyParsed).psychomotorObjectives = []) ∧
    (emptyParsed.affectiveObjectives = none →
      (postProcess emptyEnv.clock emptyParsed).affectiveObjectives = []) :=
  claim_C3_missing_lists emptyEnv "t" "EMPTY" emptyParsed rfl rfl rfl

/-- C4 (amended): a non-JSON-parseable reply makes analyze fail, so the
caller receives no partial LessonPlan; the failure value, however, is the
same generic analysis error used for transport failures, not a distinct
response-format error kind, because the parse runs inside the same
try/catch. -/
theorem claim_C4_parse_failure (env : GeminiEnv) (t text : String)
    (hkey : apiKeyPresent env = true)
    (hremote : env.remote = Except.ok text)
    (hparse : env.jsonParse (jsTrim text) = none) :
    (analyzeLessonPlanWithGemini env t).result = Except.error geminiFailureMessage := by
  simp [analyzeLessonPlanWithGemini, hkey, hremote, hparse]

theorem claim_C4_witness :
    (analyzeLessonPlanWithGemini parseFailEnv "x").result
      = Except.error geminiFailureMessage :=
  claim_C4_parse_failure parseFailEnv "x" "not json" rfl rfl rfl

/-- C4 counterexample: a non-JSON reply and a rejected remote call produce
the identical error value, so the response-format failure is not an error
kind distinct from the transport/service error kind. -/
theorem claim_C4_counterexample :
    (analyzeLessonPlanWithGemini parseFailEnv "x").result
      = (analyzeLessonPlanWithGemini transportFailEnv "x").result ∧
    (analyzeLessonPlanWithGemini parseFailEnv "x").result
      = Except.error geminiFailureMessage :=
  ⟨rfl, rfl⟩

/-- C5 (amended): ids of two calls are disjoint provided the two calls
observe disjoint Date.now() values; with the time-based generator, two calls
observing a common timestamp can repeat ids (see the counterexample). -/
theorem claim_C5_cross_call_ids (env1 env2 : GeminiEnv) (t1 t2 : String)
    (lp1 lp2 : LessonPlan)
    (hclock : ∀ k1 k2, env1.clock k1 ≠ env2.clock k2)
    (h1 : (analyzeLessonPlanWithGemini env1 t1).result = Except.ok lp1)
    (h2 : (analyzeLessonPlanWithGemini env2 t2).result = Except.ok lp2) :
    List.Disjoint (idsOf lp1) (idsOf lp2) := by
  obtain ⟨x1, p1, -, -, -, rfl⟩ := analyze_result_ok h1
  obtain ⟨x2, p2, -, -, -, rfl⟩ := analyze_result_ok h2
  intro s hs1 hs2
  obtain ⟨preA, kA, jA, hpreA, hsA⟩ := idsOf_postProcess_shape env1.clock p1 s hs1
  obtain ⟨preB, kB, jB, hpreB, hsB⟩ := idsOf_postProcess_shape env2.clock p2 s hs2
  have heq : mkId preA (env1.clock kA) jA = mkId preB (env2.clock kB) jB := by
    rw [← hsA, ← hsB]
  rcases hpreA with rfl | rfl | rfl <;> rcases hpreB with rfl | rfl | rfl <;>
    exact hclock kA kB (mkId_inj_of_length (by decide) heq).2.1

theorem claim_C5_witness :
    List.Disjoint (idsOf (postProcess envClock0.clock sameClockParsed))
      (idsOf (postProcess envClock1.clock sameClockParsed)) :=
  claim_C5_cross_call_ids envClock0 envClock1 "a" "b"
    (postProcess envClock0.clock sameClockParsed)
    (postProcess envClock1.clock sameClockParsed)
    (fun _ _ => Nat.zero_ne_one) rfl rfl

/-- C5 counterexample: two distinct calls (different lesson texts) whose
Date.now() values coincide both return the id cog-42-0, so the id sets of
two calls are not always disjoint. -/
theorem claim_C5_counterexample :
    "lesson a" ≠ "lesson b" ∧
    (analyzeLessonPlanWithGemini sameClockEnv "lesson a").result
      = Except.ok (postProcess sameClockEnv.clock sameClockParsed) ∧
    (analyzeLessonPlanWithGemini sameClockEnv "lesson b").result
      = Except.ok (postProcess sameClockEnv.clock sameClockParsed) ∧
    idsOf (postProcess sameClockEnv.clock sameClockParsed) = ["cog-42-0"] :=
  ⟨by decide, rfl, rfl, rfl⟩

/-- C6: when the remote call itself rejects, analyze re-raises it as the one
generic analysis failure, after exactly one request (no retry, no internal
recovery). -/
theorem claim_C6_transport_wrapped (env : GeminiEnv) (t e : String)
    (hkey : apiKeyPresent env = true) (hremote : env.remote = Except.error e) :
    analyzeLessonPlanWithGemini env t
      = { result := Except.error geminiFailureMessage, networkCalls := 1,
          sentPrompt := some (buildPrompt t) } := by
  simp [analyzeLessonPlanWithGemini, hkey, hremote]

theorem claim_C6_witness :
    analyzeLessonPlanWithGemini transportFailEnv "x"
      = { result := Except.error geminiFailureMessage, networkCalls := 1,
          sentPrompt := some (buildPrompt "x") } :=
  claim_C6_transport_wrapped transportFailEnv "x" "network down" rfl rfl

/-- C7: every id of the returned plan is generated locally (one of the three
tags, a Date.now() value of this call, an element index), and the plan does
not depend on any id values the remote reply carried: rewriting them
arbitrarily leaves the result unchanged. -/
theorem claim_C7_local_ids (env : GeminiEnv) (t text : String) (parsed : ParsedResult)
    (lp : LessonPlan)
    (hkey : apiKeyPresent env = true) (hremote : env.remote = Except.ok text)
    (hparse : env.jsonParse (jsTrim text) = some parsed)
    (hres : (analyzeLessonPlanWithGemini env t).result = Except.ok lp) :
    (∀ f : Option String → Option String,
      postProcess env.clock (mapRemoteIds f parsed) = lp) ∧
    (∀ s ∈ idsOf lp, ∃ pre k j,
      (pre = "cog-" ∨ pre = "psy-" ∨ pre = "aff-") ∧ s = mkId pre (env.clock k) j) := by
  have hres2 : (analyzeLessonPlanWithGemini env t).result
      = Except.ok (postProcess env.clock parsed) := by
    simp [analyzeLessonPlanWithGemini, hkey, hremote, hparse]
  rw [hres] at hres2
  injection hres2 with hlp
  subst hlp
  constructor
  · intro f
    exact postProcess_mapRemoteIds env.clock f parsed
  · exact idsOf_postProcess_shape env.clock parsed

theorem claim_C7_witness :
    (∀ f : Option String → Option String,
      postProcess sampleEnv.clock (mapRemoteIds f sampleParsed) = sampleLP) ∧
    (∀ s ∈ idsOf sampleLP, ∃ pre k j,
      (pre = "cog-" ∨ pre = "psy-" ∨ pre = "aff-") ∧ s = mkId pre (sampleEnv.clock k) j) :=
  claim_C7_local_ids sampleEnv "lesson text" "  SAMPLE  " sampleParsed sampleLP rfl rfl rfl rfl

/-- C8: each id of a returned plan carries the tag of its list (cog-, psy-,
aff-), and ids of different lists of one result never collide, whatever the
clock (in particular when every Date.now() value coincides). -/
theorem claim_C8_list_tags (env : GeminiEnv) (t : String) (lp : LessonPlan)
    (h : (analyzeLessonPlanWithGemini env t).result = Except.ok lp) :
    (∀ o ∈ lp.cognitiveObjectives, ∃ r, o.id = "cog-" ++ r) ∧
    (∀ o ∈ lp.psychomotorObjectives, ∃ r, o.id = "psy-" ++ r) ∧
    (∀ o ∈ lp.affectiveObjectives, ∃ r, o.id = "aff-" ++ r) ∧
    (∀ o ∈ lp.cognitiveObjectives, ∀ o2 ∈ lp.psychomotorObjectives, o.id ≠ o2.id) ∧
    (∀ o ∈ lp.cognitiveObjectives, ∀ o2 ∈ lp.affectiveObjectives, o.id ≠ o2.id) ∧
    (∀ o ∈ lp.psychomotorObjectives, ∀ o2 ∈ lp.affectiveObjectives, o.id ≠ o2.id) := by
  obtain ⟨text, parsed, -, -, -, rfl⟩ := analyze_result_ok h
  have hc : ∀ o ∈ (postProcess env.clock parsed).cognitiveObjectives,
      ∃ r, o.id = "cog-" ++ r := by
    rw [postProcess_cognitive]; exact fun o ho => assignIds_mem_pre ho
  have hp : ∀ o ∈ (postProcess env.clock parsed).psychomotorObjectives,
      ∃ r, o.id = "psy-" ++ r := by
    rw [postProcess_psychomotor]; exact fun o ho => assignIds_mem_pre ho
  have ha : ∀ o ∈ (postProcess env.clock parsed).affectiveObjectives,
      ∃ r, o.id = "aff-" ++ r := by
    rw [postProcess_affective]; exact fun o ho => assignIds_mem_pre ho
  refine ⟨hc, hp, ha, ?_, ?_, ?_⟩
  · intro o ho o2 ho2
    obtain ⟨r, hr⟩ := hc o ho
    obtain ⟨s, hs⟩ := hp o2 ho2
    rw [hr, hs]
    exact tag_append_ne rfl rfl (by decide) r s
  · intro o ho o2 ho2
    obtain ⟨r, hr⟩ := hc o ho
    obtain ⟨s, hs⟩ := ha o2 ho2
    rw [hr, hs]
    exact tag_append_ne rfl rfl (by decide) r s
  · intro o ho o2 ho2
    obtain ⟨r, hr⟩ := hp o ho
    obtain ⟨s, hs⟩ := ha o2 ho2
    rw [hr, hs]
    exact tag_append_ne rfl rfl (by decide) r s

theorem claim_C8_witness :
    (∀ o ∈ sampleLP.cognitiveObjectives, ∃ r, o.id = "cog-" ++ r) ∧
    (∀ o ∈ sampleLP.psychomotorObjectives, ∃ r, o.id = "psy-" ++ r) ∧
    (∀ o ∈ sampleLP.affectiveObjectives, ∃ r, o.id = "aff-" ++ r) ∧
    (∀ o ∈ sampleLP.cognitiveObjectives, ∀ o2 ∈ sampleLP.psychomotorObjectives,
      o.id ≠ o2.id) ∧
    (∀ o ∈ sampleLP.cognitiveObjectives, ∀ o2 ∈ sampleLP.affectiveObjectives,
      o.id ≠ o2.id) ∧
    (∀ o ∈ sampleLP.psychomotorObjectives, ∀ o2 ∈ sampleLP.affectiveObjectives,
      o.id ≠ o2.id) :=
  claim_C8_list_tags sampleEnv "lesson text" sampleLP rfl

/-- C9: the reply text is trimmed before JSON parsing: a reply that is a
parseable document surrounded by whitespace behaves exactly as the reply
without the padding, and the call succeeds. -/
theorem claim_C9_trim (env : GeminiEnv) (t body ws1 ws2 : String) (parsed : ParsedResult)
    (h1 : ∀ c ∈ ws1.data, c.isWhitespace = true)
    (h2 : ∀ c ∈ ws2.data, c.isWhitespace = true)
    (hkey : apiKeyPresent env = true)
    (hremote : env.remote = Except.ok (ws1 ++ body ++ ws2))
    (hparse : env.jsonParse (jsTrim body) = some parsed) :
    analyzeLessonPlanWithGemini env t
      = analyzeLessonPlanWithGemini { env with remote := Except.ok body } t ∧
    (analyzeLessonPlanWithGemini env t).result = Except.ok (postProcess env.clock parsed) := by
  have htrim : jsTrim (ws1 ++ body ++ ws2) = jsTrim body := jsTrim_pad ws1 body ws2 h1 h2
  constructor
  · simp [analyzeLessonPlanWithGemini, apiKeyPresent, hkey, hremote, htrim]
  · simp [analyzeLessonPlanWithGemini, hkey, hremote, htrim, hparse]

theorem claim_C9_witness :
    analyzeLessonPlanWithGemini sampleEnv "z"
      = analyzeLessonPlanWithGemini { sampleEnv with remote := Except.ok "SAMPLE" } "z" ∧
    (analyzeLessonPlanWithGemini sampleEnv "z").result
      = Except.ok (postProcess sampleEnv.clock sampleParsed) :=
  claim_C9_trim sampleEnv "z" "SAMPLE" "  " "  " sampleParsed
    (by decide) (by decide) rfl rfl rfl

/-- C10: whenever a request is issued, its instruction text is exactly the
fixed prompt text with the raw lesson text spliced in between: the lesson
text stands in the prompt verbatim as a contiguous substring, with no
escaping, truncation or other transformation. -/
theorem claim_C10_verbatim (env : GeminiEnv) (t : String)
    (hkey : apiKeyPresent env = true) :
    (analyzeLessonPlanWithGemini env t).sentPrompt = some (promptPre ++ t ++ promptSuf) := by
  cases hrem : env.remote with
  | error e => simp [analyzeLessonPlanWithGemini, hkey, hrem, buildPrompt]
  | ok text =>
    cases hp : env.jsonParse (jsTrim text) with
    | none => simp [analyzeLessonPlanWithGemini, hkey, hrem, hp, buildPrompt]
    | some parsed => simp [analyzeLessonPlanWithGemini, hkey, hrem, hp, buildPrompt]

theorem claim_C10_witness :
    (analyzeLessonPlanWithGemini sampleEnv "my lesson").sentPrompt
      = some (promptPre ++ "my lesson" ++ promptSuf) :=
  claim_C10_verbatim sampleEnv "my lesson" rfl

end GeminiService
